import Mathlib

/-!
Shallow embedding of the session orchestrator `audio_manager.c`
(components/xn_audio_manager/src/audio_manager.c) of the xn_esp32_audio
repository, together with theorems settling the specification claims.

The orchestrator keeps a single global context `s_ctx`; here every operation
takes the context explicitly and returns the updated context.  External
collaborators (I2S HAL, ring buffer, playback controller, AFE wrapper, button
handler) are consumed only through create/destroy/query calls; those calls are
modelled by environment records that fix the collaborators' return values, and
every call the orchestrator makes is recorded in a trace so that ordering
properties (creation/rollback/teardown order) are provable.
-/

/-- ESP-IDF error codes used by the orchestrator. -/
inductive EspErr where
  | ok
  | invalidArg
  | invalidState
  | noMem
  deriving DecidableEq, Repr

/-- `audio_mgr_wakeup_config_t`: wake-word settings stored in the manager
config and copied wholesale by `audio_manager_update_wakeup_config`. -/
structure WakeupConfig where
  enabled : Bool
  wake_word_name : String
  model_partition : String
  sensitivity : Nat
  wakeup_timeout_ms : Nat
  wakeup_end_delay_ms : Nat
  deriving DecidableEq, Repr

/-- The four wake-word fields the orchestrator pushes to the AFE wrapper
(`afe_wakeup_config_t` as built inside `audio_manager_update_wakeup_config`
and `audio_manager_init`). -/
structure AfeWakeupConfig where
  enabled : Bool
  wake_word_name : String
  model_partition : String
  sensitivity : Nat
  deriving DecidableEq, Repr

/-- Microphone part of `audio_mgr_hw_config_t`. -/
structure MicConfig where
  port : Nat
  bclk_gpio : Nat
  lrck_gpio : Nat
  din_gpio : Nat
  sample_rate : Nat
  bits : Nat
  deriving DecidableEq, Repr

/-- Speaker part of `audio_mgr_hw_config_t`. -/
structure SpeakerConfig where
  port : Nat
  bclk_gpio : Nat
  lrck_gpio : Nat
  dout_gpio : Nat
  sample_rate : Nat
  bits : Nat
  deriving DecidableEq, Repr

/-- Button part of `audio_mgr_hw_config_t`. -/
structure ButtonConfig where
  gpio : Nat
  active_low : Bool
  deriving DecidableEq, Repr

/-- `audio_mgr_hw_config_t`. -/
structure HwConfig where
  mic : MicConfig
  speaker : SpeakerConfig
  button : ButtonConfig
  deriving DecidableEq, Repr

/-- VAD settings of `audio_mgr_config_t`. -/
structure VadConfig where
  enabled : Bool
  vad_mode : Nat
  min_speech_ms : Nat
  min_silence_ms : Nat
  deriving DecidableEq, Repr

/-- AFE feature settings of `audio_mgr_config_t`. -/
structure AfeConfig where
  aec_enabled : Bool
  ns_enabled : Bool
  agc_enabled : Bool
  afe_mode : Nat
  deriving DecidableEq, Repr

/-- `audio_mgr_config_t`.  The application event callback is an opaque
function pointer; it is modelled as `Option Nat` (an abstract callback
identity, `none` = NULL), and the opaque user context as a `Nat` pointer
value. -/
structure AudioMgrConfig where
  hw_config : HwConfig
  wakeup_config : WakeupConfig
  vad_config : VadConfig
  afe_config : AfeConfig
  event_callback : Option Nat
  user_ctx : Nat
  deriving DecidableEq, Repr

/-- The zero value of `MicConfig` (all-zero bytes, as produced by
`static ... = {0}` / `memset`). -/
def MicConfig.zero : MicConfig :=
  { port := 0, bclk_gpio := 0, lrck_gpio := 0, din_gpio := 0,
    sample_rate := 0, bits := 0 }

/-- The zero value of `SpeakerConfig`. -/
def SpeakerConfig.zero : SpeakerConfig :=
  { port := 0, bclk_gpio := 0, lrck_gpio := 0, dout_gpio := 0,
    sample_rate := 0, bits := 0 }

/-- The zero value of `ButtonConfig`. -/
def ButtonConfig.zero : ButtonConfig := { gpio := 0, active_low := false }

/-- The zero value of `HwConfig`. -/
def HwConfig.zero : HwConfig :=
  { mic := MicConfig.zero, speaker := SpeakerConfig.zero,
    button := ButtonConfig.zero }

/-- The zero value of `WakeupConfig` (NULL strings are modelled by `""`). -/
def WakeupConfig.zero : WakeupConfig :=
  { enabled := false, wake_word_name := "", model_partition := "",
    sensitivity := 0, wakeup_timeout_ms := 0, wakeup_end_delay_ms := 0 }

/-- The zero value of `VadConfig`. -/
def VadConfig.zero : VadConfig :=
  { enabled := false, vad_mode := 0, min_speech_ms := 0, min_silence_ms := 0 }

/-- The zero value of `AfeConfig`. -/
def AfeConfig.zero : AfeConfig :=
  { aec_enabled := false, ns_enabled := false, agc_enabled := false,
    afe_mode := 0 }

/-- The zero value of `AudioMgrConfig`. -/
def AudioMgrConfig.zero : AudioMgrConfig :=
  { hw_config := HwConfig.zero, wakeup_config := WakeupConfig.zero,
    vad_config := VadConfig.zero, afe_config := AfeConfig.zero,
    event_callback := none, user_ctx := 0 }

/-- `audio_manager_ctx_t`: the orchestrator context (`s_ctx` in the C file).
Opaque collaborator handles are `Option Nat` (`none` = NULL pointer). -/
structure AudioManagerCtx where
  config : AudioMgrConfig
  i2s_hal : Option Nat
  playback_ctrl : Option Nat
  button_handler : Option Nat
  afe_wrapper : Option Nat
  reference_rb : Option Nat
  initialized : Bool
  running : Bool
  recording : Bool
  volume : Nat
  record_callback : Option Nat
  record_ctx : Nat
  deriving DecidableEq, Repr

/-- The all-zero context, i.e. `static audio_manager_ctx_t s_ctx = {0}` and
also the result of `memset(&s_ctx, 0, sizeof(s_ctx))` in deinit. -/
def AudioManagerCtx.zero : AudioManagerCtx :=
  { config := AudioMgrConfig.zero, i2s_hal := none, playback_ctrl := none,
    button_handler := none, afe_wrapper := none, reference_rb := none,
    initialized := false, running := false, recording := false,
    volume := 0, record_callback := none, record_ctx := 0 }

/-- The external collaborators the orchestrator creates and destroys. -/
inductive Collab where
  | i2sHal
  | refBuffer
  | playbackCtrl
  | afeWrapper
  | buttonHandler
  deriving DecidableEq, Repr

/-- One call the orchestrator makes into a collaborator.  `create`/`destroy`
record the collaborator kind and the handle; the remaining constructors are
the playback-controller and AFE queries used by the claims. -/
inductive TraceEv where
  | create (c : Collab) (h : Nat)
  | destroy (c : Collab) (h : Nat)
  | getReferenceBuffer (h : Nat)
  | pcStop (h : Option Nat)
  | pcWrite (h : Option Nat) (data : List Int) (count : Nat)
  | pcGetFreeSpace (h : Option Nat)
  | pcIsRunning (h : Option Nat)
  | afeUpdateWakeup (h : Option Nat) (cfg : AfeWakeupConfig)
  deriving DecidableEq, Repr

/-- Return values of the collaborator `create` calls made during
`audio_manager_init` (a `none` models the collaborator returning NULL), plus
the handle `playback_controller_get_reference_buffer` hands back. -/
structure InitEnv where
  i2s_create : Option Nat
  rb_create : Option Nat
  playback_create : Option Nat
  playback_reference_rb : Nat
  afe_create : Option Nat
  button_create : Option Nat
  deriving DecidableEq, Repr

/-- `audio_manager_init`: idempotent fast path, argument validation, then the
five-step creation sequence with hand-rolled reverse-order rollback.  Returns
the error code, the final context, and the trace of collaborator calls.
Mirrors the C control flow statement by statement: the config memcpy and
`volume = 80` happen before step 1, each handle field is assigned the create
result (also when that result is NULL), and failure branches call only the
destroy functions that the C branch calls, leaving every other field as it
was. -/
def audio_manager_init (s : AudioManagerCtx) (config : Option AudioMgrConfig)
    (env : InitEnv) : EspErr × AudioManagerCtx × List TraceEv :=
  if s.initialized then (.ok, s, [])
  else
    match config with
    | none => (.invalidArg, s, [])
    | some cfg =>
      match cfg.event_callback with
      | none => (.invalidArg, s, [])
      | some _ =>
        let s0 : AudioManagerCtx := { s with config := cfg, volume := 80 }
        match env.i2s_create with
        | none => (.noMem, { s0 with i2s_hal := none }, [])
        | some h1 =>
          let s1 : AudioManagerCtx := { s0 with i2s_hal := some h1 }
          match env.rb_create with
          | none =>
            (.noMem, { s1 with reference_rb := none },
              [.create .i2sHal h1, .destroy .i2sHal h1])
          | some h2 =>
            let s2 : AudioManagerCtx := { s1 with reference_rb := some h2 }
            match env.playback_create with
            | none =>
              (.noMem, { s2 with playback_ctrl := none },
                [.create .i2sHal h1, .create .refBuffer h2,
                 .destroy .refBuffer h2, .destroy .i2sHal h1])
            | some h3 =>
              let s3 : AudioManagerCtx :=
                { s2 with playback_ctrl := some h3,
                          reference_rb := some env.playback_reference_rb }
              match env.afe_create with
              | none =>
                (.noMem, { s3 with afe_wrapper := none },
                  [.create .i2sHal h1, .create .refBuffer h2,
                   .create .playbackCtrl h3,
                   .getReferenceBuffer env.playback_reference_rb,
                   .destroy .playbackCtrl h3, .destroy .i2sHal h1])
              | some h4 =>
                let s4 : AudioManagerCtx := { s3 with afe_wrapper := some h4 }
                match env.button_create with
                | none =>
                  (.noMem, { s4 with button_handler := none },
                    [.create .i2sHal h1, .create .refBuffer h2,
                     .create .playbackCtrl h3,
                     .getReferenceBuffer env.playback_reference_rb,
                     .create .afeWrapper h4,
                     .destroy .afeWrapper h4, .destroy .playbackCtrl h3,
                     .destroy .i2sHal h1])
                | some h5 =>
                  (.ok,
                    { s4 with button_handler := some h5, initialized := true },
                    [.create .i2sHal h1, .create .refBuffer h2,
                     .create .playbackCtrl h3,
                     .getReferenceBuffer env.playback_reference_rb,
                     .create .afeWrapper h4, .create .buttonHandler h5])

/-- `audio_manager_stop`: early-returns success when not running, otherwise
clears `running` and `recording`. -/
def audio_manager_stop (s : AudioManagerCtx) : EspErr × AudioManagerCtx :=
  if !s.running then (.ok, s)
  else (.ok, { s with running := false, recording := false })

/-- `audio_manager_start`: invalid-state before init, no-op when already
running, otherwise sets `running`. -/
def audio_manager_start (s : AudioManagerCtx) : EspErr × AudioManagerCtx :=
  if !s.initialized then (.invalidState, s)
  else if s.running then (.ok, s)
  else (.ok, { s with running := true })

/-- `audio_manager_start_recording`: invalid-state before init, otherwise
unconditionally sets `recording`. -/
def audio_manager_start_recording (s : AudioManagerCtx) :
    EspErr × AudioManagerCtx :=
  if !s.initialized then (.invalidState, s)
  else (.ok, { s with recording := true })

/-- `audio_manager_stop_recording`: no-op success when not recording,
otherwise clears `recording`. -/
def audio_manager_stop_recording (s : AudioManagerCtx) :
    EspErr × AudioManagerCtx :=
  if !s.recording then (.ok, s)
  else (.ok, { s with recording := false })

/-- Result of `playback_controller_stop` fixed by the environment. -/
structure PcStopEnv where
  pc_stop_result : EspErr
  deriving DecidableEq, Repr

/-- `audio_manager_stop_playback`: returns success when uninitialized
(tolerant, usable during teardown), otherwise delegates to
`playback_controller_stop` and returns its result. -/
def audio_manager_stop_playback (s : AudioManagerCtx) (env : PcStopEnv) :
    EspErr × List TraceEv :=
  if !s.initialized then (.ok, [])
  else (env.pc_stop_result, [.pcStop s.playback_ctrl])

/-- `audio_manager_deinit`: no-op when uninitialized; otherwise stops
listening and playback, destroys the four collaborators in reverse creation
order (each guarded by a NULL check, the reference buffer deliberately not
destroyed), then zeroes the whole context. -/
def audio_manager_deinit (s : AudioManagerCtx) (env : PcStopEnv) :
    AudioManagerCtx × List TraceEv :=
  if !s.initialized then (s, [])
  else
    let s1 := (audio_manager_stop s).2
    let tr0 := (audio_manager_stop_playback s1 env).2
    let d1 : List TraceEv := match s1.button_handler with
      | some h => [.destroy .buttonHandler h]
      | none => []
    let d2 : List TraceEv := match s1.afe_wrapper with
      | some h => [.destroy .afeWrapper h]
      | none => []
    let d3 : List TraceEv := match s1.playback_ctrl with
      | some h => [.destroy .playbackCtrl h]
      | none => []
    let d4 : List TraceEv := match s1.i2s_hal with
      | some h => [.destroy .i2sHal h]
      | none => []
    (AudioManagerCtx.zero, tr0 ++ d1 ++ d2 ++ d3 ++ d4)

/-- Result of `playback_controller_write` fixed by the environment. -/
structure PcWriteEnv where
  pc_write_result : EspErr
  deriving DecidableEq, Repr

/-- `audio_manager_play_audio`: invalid-argument when uninitialized, the PCM
pointer is NULL, or the sample count is zero; otherwise forwards to
`playback_controller_write` and returns its result.  The PCM pointer is
modelled as `Option (List Int)` (`none` = NULL); the trace records the write
call so that "the playback buffer is not touched" is provable. -/
def audio_manager_play_audio (s : AudioManagerCtx)
    (pcm_data : Option (List Int)) (sample_count : Nat) (env : PcWriteEnv) :
    EspErr × List TraceEv :=
  if !s.initialized || pcm_data.isNone || sample_count == 0 then
    (.invalidArg, [])
  else
    (env.pc_write_result,
      [.pcWrite s.playback_ctrl (pcm_data.getD []) sample_count])

/-- Result of `playback_controller_get_free_space` as a function of the
handle the orchestrator passes. -/
structure PcFreeSpaceEnv where
  pc_get_free_space : Option Nat → Nat

/-- `audio_manager_get_playback_free_space`: returns 0 without touching the
collaborator when uninitialized or the handle is NULL; otherwise delegates. -/
def audio_manager_get_playback_free_space (s : AudioManagerCtx)
    (env : PcFreeSpaceEnv) : Nat × List TraceEv :=
  if !s.initialized || s.playback_ctrl.isNone then (0, [])
  else (env.pc_get_free_space s.playback_ctrl, [.pcGetFreeSpace s.playback_ctrl])

/-- Result of `playback_controller_is_running` as a function of the handle
the orchestrator passes (the collaborator sees the raw, possibly NULL
handle). -/
structure PcIsRunningEnv where
  pc_is_running : Option Nat → Bool

/-- `audio_manager_is_playing`: delegates unconditionally — no
initialization check, the stored (possibly NULL) playback handle is handed
straight to `playback_controller_is_running`. -/
def audio_manager_is_playing (s : AudioManagerCtx) (env : PcIsRunningEnv) :
    Bool × List TraceEv :=
  (env.pc_is_running s.playback_ctrl, [.pcIsRunning s.playback_ctrl])

/-- `audio_manager_is_running`: pure read of the `running` flag. -/
def audio_manager_is_running (s : AudioManagerCtx) : Bool := s.running

/-- `audio_manager_is_recording`: pure read of the `recording` flag. -/
def audio_manager_is_recording (s : AudioManagerCtx) : Bool := s.recording

/-- Result of `afe_wrapper_update_wakeup_config` fixed by the environment. -/
structure AfeUpdateEnv where
  afe_update_result : EspErr
  deriving DecidableEq, Repr

/-- `audio_manager_update_wakeup_config`: invalid-argument when uninitialized
or the config pointer is NULL; otherwise copies the new wake-word config into
the stored config first, then pushes the four AFE-relevant fields to
`afe_wrapper_update_wakeup_config` and returns that call's result. -/
def audio_manager_update_wakeup_config (s : AudioManagerCtx)
    (config : Option WakeupConfig) (env : AfeUpdateEnv) :
    EspErr × AudioManagerCtx × List TraceEv :=
  if !s.initialized || config.isNone then (.invalidArg, s, [])
  else
    let cfg := config.getD WakeupConfig.zero
    let s2 : AudioManagerCtx :=
      { s with config := { s.config with wakeup_config := cfg } }
    (env.afe_update_result, s2,
      [.afeUpdateWakeup s.afe_wrapper
        { enabled := cfg.enabled, wake_word_name := cfg.wake_word_name,
          model_partition := cfg.model_partition,
          sensitivity := cfg.sensitivity }])

/-- `audio_manager_get_wakeup_config`: invalid-argument when uninitialized or
the out pointer is NULL (the out pointer is modelled by a `Bool` presence
flag); otherwise copies out the stored wake-word config. -/
def audio_manager_get_wakeup_config (s : AudioManagerCtx)
    (out_present : Bool) : EspErr × Option WakeupConfig :=
  if !s.initialized || !out_present then (.invalidArg, none)
  else (.ok, some s.config.wakeup_config)

/-- `afe_event_t` event kinds delivered by the AFE wrapper. -/
inductive AfeEventType where
  | wakeupDetected
  | vadStart
  | vadEnd
  deriving DecidableEq, Repr

/-- `afe_event_t`: the inbound AFE event with its wake-word payload. -/
structure AfeEvent where
  type : AfeEventType
  wake_word_index : Int
  volume_db : Int
  deriving DecidableEq, Repr

/-- `audio_mgr_event_t` discriminants (the zero value of the C enum field in
a `{0}`-initialized event is the first discriminant). -/
inductive MgrEventType where
  | buttonTrigger
  | buttonRelease
  | wakeupDetected
  | vadStart
  | vadEnd
  deriving DecidableEq, Repr

/-- The wake-word payload of `audio_mgr_event_t`. -/
structure MgrWakeupPayload where
  wake_word_index : Int
  volume_db : Int
  deriving DecidableEq, Repr

/-- The zero payload (event built as `{0}` with no payload fields set). -/
def MgrWakeupPayload.zero : MgrWakeupPayload :=
  { wake_word_index := 0, volume_db := 0 }

/-- `audio_mgr_event_t` as handed to the application event callback. -/
structure MgrEvent where
  type : MgrEventType
  wakeup : MgrWakeupPayload
  deriving DecidableEq, Repr

/-- One invocation of the application event callback: which callback, the
event, and the opaque user context. -/
structure Dispatch where
  callback : Nat
  event : MgrEvent
  user_ctx : Nat
  deriving DecidableEq, Repr

/-- `afe_event_handler`: drops the event when no application callback is
registered; otherwise builds the manager event (copying the wake-word payload
verbatim for wake-up detections) and invokes the callback exactly once. -/
def afe_event_handler (s : AudioManagerCtx) (event : AfeEvent) :
    List Dispatch :=
  match s.config.event_callback with
  | none => []
  | some cb =>
    let mgr_event : MgrEvent :=
      match event.type with
      | .wakeupDetected =>
        { type := .wakeupDetected,
          wakeup := { wake_word_index := event.wake_word_index,
                      volume_db := event.volume_db } }
      | .vadStart => { type := .vadStart, wakeup := MgrWakeupPayload.zero }
      | .vadEnd => { type := .vadEnd, wakeup := MgrWakeupPayload.zero }
    [{ callback := cb, event := mgr_event, user_ctx := s.config.user_ctx }]

/-- A concrete valid configuration (the shape `audio_config_app_build`
produces), used by witnesses and counterexamples. -/
def testConfig : AudioMgrConfig :=
  { hw_config :=
      { mic := { port := 1, bclk_gpio := 15, lrck_gpio := 2, din_gpio := 39,
                 sample_rate := 16000, bits := 32 },
        speaker := { port := 0, bclk_gpio := 48, lrck_gpio := 38,
                     dout_gpio := 47, sample_rate := 16000, bits := 16 },
        button := { gpio := 0, active_low := true } },
    wakeup_config :=
      { enabled := false, wake_word_name := "xiaoya",
        model_partition := "model", sensitivity := 2,
        wakeup_timeout_ms := 8000, wakeup_end_delay_ms := 1200 },
    vad_config := { enabled := true, vad_mode := 2, min_speech_ms := 200,
                    min_silence_ms := 400 },
    afe_config := { aec_enabled := true, ns_enabled := true,
                    agc_enabled := true, afe_mode := 1 },
    event_callback := some 1,
    user_ctx := 7 }

/-- An environment in which every collaborator creation succeeds. -/
def envAllOk : InitEnv :=
  { i2s_create := some 11, rb_create := some 12, playback_create := some 13,
    playback_reference_rb := 14, afe_create := some 15,
    button_create := some 16 }

/-- The context produced by a fully successful first init on the zero
context: all four collaborator handles set, initialized, volume 80. -/
def initializedCtx : AudioManagerCtx :=
  (audio_manager_init AudioManagerCtx.zero (some testConfig) envAllOk).2.1

/-- Claim C3: init is idempotent — on an already-initialized context a
second init call with valid arguments returns success immediately, creates
and destroys no collaborator (empty call trace), and modifies no field of
the context. -/
theorem init_idempotent_fast_path (s : AudioManagerCtx) (c : AudioMgrConfig)
    (env : InitEnv) (hinit : s.initialized = true)
    (hcb : c.event_callback.isSome = true) :
    audio_manager_init s (some c) env = (.ok, s, []) := by
  simp [audio_manager_init, hinit]

/-- Witness for C3: a second init on the concrete initialized context
returns success, leaves the context unchanged and makes no collaborator
call. -/
theorem init_idempotent_fast_path_witness :
    audio_manager_init initializedCtx (some testConfig) envAllOk =
      (.ok, initializedCtx, []) :=
  init_idempotent_fast_path initializedCtx testConfig envAllOk rfl rfl

/-- Claim C8: the already-initialized fast path is evaluated before argument
validation, so on an initialized context init returns success (never
invalid-argument) even when the config or the event callback is absent. -/
theorem init_fast_path_before_validation (s : AudioManagerCtx)
    (cfg : Option AudioMgrConfig) (env : InitEnv)
    (hinit : s.initialized = true)
    (habsent : cfg = none ∨ ∃ c, cfg = some c ∧ c.event_callback = none) :
    audio_manager_init s cfg env = (.ok, s, []) ∧
    (audio_manager_init s cfg env).1 ≠ .invalidArg := by
  constructor
  · simp [audio_manager_init, hinit]
  · simp [audio_manager_init, hinit]

/-- Witness for C8: init with a NULL config on the concrete initialized
context returns success. -/
theorem init_fast_path_before_validation_witness :
    audio_manager_init initializedCtx none envAllOk =
      (.ok, initializedCtx, []) :=
  (init_fast_path_before_validation initializedCtx none envAllOk rfl
    (Or.inl rfl)).1

/-- Claim C5: play_audio returns invalid-argument exactly when the context
is uninitialized, the PCM pointer is NULL, or the sample count is zero, and
in those cases makes no write call into the playback buffer; otherwise it
makes exactly one write call with the given samples and returns the write
operation's result unchanged. -/
theorem play_audio_spec (s : AudioManagerCtx) (pcm : Option (List Int))
    (n : Nat) (env : PcWriteEnv) :
    ((s.initialized = false ∨ pcm = none ∨ n = 0) →
      audio_manager_play_audio s pcm n env = (.invalidArg, [])) ∧
    (s.initialized = true → ∀ d, pcm = some d → n ≠ 0 →
      audio_manager_play_audio s pcm n env =
        (env.pc_write_result, [.pcWrite s.playback_ctrl d n])) ∧
    (env.pc_write_result ≠ .invalidArg →
      ((audio_manager_play_audio s pcm n env).1 = .invalidArg ↔
        (s.initialized = false ∨ pcm = none ∨ n = 0))) := by
  refine ⟨?_, ?_, ?_⟩
  · rintro (h | h | h) <;> simp [audio_manager_play_audio, h]
  · intro hinit d hd hn
    simp [audio_manager_play_audio, hinit, hd, hn]
  · intro hw
    rcases hini : s.initialized with _ | _
    · simp [audio_manager_play_audio, hini]
    · rcases pcm with _ | d
      · simp [audio_manager_play_audio]
      · rcases n with _ | m
        · simp [audio_manager_play_audio]
        · simp [audio_manager_play_audio, hini, hw]

/-- Witness for C5: play_audio with a NULL buffer returns invalid-argument
and makes no write call. -/
theorem play_audio_spec_witness :
    audio_manager_play_audio AudioManagerCtx.zero none 10 ⟨.ok⟩ =
      (.invalidArg, []) :=
  (play_audio_spec AudioManagerCtx.zero none 10 ⟨.ok⟩).1 (Or.inr (Or.inl rfl))

/-- Claim C6: an inbound AFE wake-word detection event is relayed to the
application event callback exactly once, with the wake-up discriminant and
the wake_word_index / volume_db payload copied verbatim; with no callback
registered the event is dropped and nothing else happens. -/
theorem afe_wakeup_event_relayed (s : AudioManagerCtx) (ev : AfeEvent)
    (htype : ev.type = .wakeupDetected) :
    (s.config.event_callback = none → afe_event_handler s ev = []) ∧
    (∀ cb, s.config.event_callback = some cb →
      afe_event_handler s ev =
        [{ callback := cb,
           event := { type := .wakeupDetected,
                      wakeup := { wake_word_index := ev.wake_word_index,
                                  volume_db := ev.volume_db } },
           user_ctx := s.config.user_ctx }]) := by
  constructor
  · intro h; simp [afe_event_handler, h]
  · intro cb h; simp [afe_event_handler, h, htype]

/-- Witness for C6: a wake-word event with index 2 and volume -12 dB is
relayed with exactly those fields. -/
theorem afe_wakeup_event_relayed_witness :
    afe_event_handler initializedCtx
        { type := .wakeupDetected, wake_word_index := 2, volume_db := -12 } =
      [{ callback := 1,
         event := { type := .wakeupDetected,
                    wakeup := { wake_word_index := 2, volume_db := -12 } },
         user_ctx := 7 }] :=
  (afe_wakeup_event_relayed initializedCtx
    { type := .wakeupDetected, wake_word_index := 2, volume_db := -12 }
    rfl).2 1 rfl

/-- Claim C9: is_playing performs no initialization check — on an
uninitialized context it forwards the NULL playback handle straight to the
collaborator's is-running query (so the result is whatever the collaborator
returns for NULL, not a direct false), unlike the guarded delegating
operations such as get_playback_free_space, which return without any
collaborator call when uninitialized. -/
theorem is_playing_no_init_check (s : AudioManagerCtx)
    (env : PcIsRunningEnv) (hinit : s.initialized = false)
    (hpc : s.playback_ctrl = none) :
    (audio_manager_is_playing s env).2 = [.pcIsRunning none] ∧
    (audio_manager_is_playing s env).1 = env.pc_is_running none ∧
    (audio_manager_is_playing s { pc_is_running := fun _ => true }).1 = true ∧
    (audio_manager_get_playback_free_space s
        { pc_get_free_space := fun _ => 5 }).2 = [] := by
  refine ⟨?_, ?_, ?_, ?_⟩
  · simp [audio_manager_is_playing, hpc]
  · simp [audio_manager_is_playing, hpc]
  · simp [audio_manager_is_playing]
  · simp [audio_manager_get_playback_free_space, hinit]

/-- Witness for C9: on the zero (uninitialized) context the is-running query
is made with the NULL handle. -/
theorem is_playing_no_init_check_witness :
    (audio_manager_is_playing AudioManagerCtx.zero
        { pc_is_running := fun _ => false }).2 = [.pcIsRunning none] :=
  (is_playing_no_init_check AudioManagerCtx.zero
    { pc_is_running := fun _ => false } rfl rfl).1

/-- Claim C10: update_wakeup_config is not atomic on error — on an
initialized context with a present config it overwrites the stored wake-word
configuration with the new values, then pushes to the AFE wrapper and
returns that push's result; so when the push fails, the call returns the
failure while get_wakeup_config already yields the new values. -/
theorem update_wakeup_config_not_atomic (s : AudioManagerCtx)
    (cfg : WakeupConfig) (env : AfeUpdateEnv)
    (hinit : s.initialized = true) :
    (audio_manager_update_wakeup_config s (some cfg) env).1 =
      env.afe_update_result ∧
    (audio_manager_update_wakeup_config s (some cfg) env).2.1.config.wakeup_config
      = cfg ∧
    (audio_manager_update_wakeup_config s (some cfg) env).2.2 =
      [.afeUpdateWakeup s.afe_wrapper
        { enabled := cfg.enabled, wake_word_name := cfg.wake_word_name,
          model_partition := cfg.model_partition,
          sensitivity := cfg.sensitivity }] ∧
    audio_manager_get_wakeup_config
        (audio_manager_update_wakeup_config s (some cfg) env).2.1 true =
      (.ok, some cfg) ∧
    (env.afe_update_result ≠ .ok →
      (audio_manager_update_wakeup_config s (some cfg) env).1 ≠ .ok ∧
      (audio_manager_update_wakeup_config s (some cfg) env).2.1.config.wakeup_config
        = cfg) := by
  refine ⟨?_, ?_, ?_, ?_, ?_⟩
  · simp [audio_manager_update_wakeup_config, hinit]
  · simp [audio_manager_update_wakeup_config, hinit]
  · simp [audio_manager_update_wakeup_config, hinit]
  · simp [audio_manager_update_wakeup_config,
      audio_manager_get_wakeup_config, hinit]
  · intro hfail
    refine ⟨?_, ?_⟩
    · simpa [audio_manager_update_wakeup_config, hinit] using hfail
    · simp [audio_manager_update_wakeup_config, hinit]

/-- A new wake-word configuration used by the C10 witness. -/
def newWakeupCfg : WakeupConfig :=
  { enabled := true, wake_word_name := "hello", model_partition := "m2",
    sensitivity := 3, wakeup_timeout_ms := 5000, wakeup_end_delay_ms := 900 }

/-- Witness for C10: with the AFE push failing with no-mem, the stored
wake-word configuration has already been overwritten with the new values. -/
theorem update_wakeup_config_not_atomic_witness :
    (audio_manager_update_wakeup_config initializedCtx (some newWakeupCfg)
        { afe_update_result := .noMem }).2.1.config.wakeup_config =
      newWakeupCfg :=
  (update_wakeup_config_not_atomic initializedCtx newWakeupCfg
    { afe_update_result := .noMem } rfl).2.1

/-- Claim C7: deinit is a no-op on an uninitialized context; otherwise it
stops playback, destroys ButtonInput, FrontEndProcessor, PlaybackController,
then HardwareAudioIO in strict reverse creation order, never destroys the
reference buffer separately, and zeroes the whole context — so afterwards
is_running and is_recording are false and a following init behaves exactly
as a first-time call on the zero context. -/
theorem deinit_spec (s : AudioManagerCtx) (env : PcStopEnv) :
    (s.initialized = false → audio_manager_deinit s env = (s, [])) ∧
    (∀ ih ph bh ah, s.initialized = true → s.i2s_hal = some ih →
      s.playback_ctrl = some ph → s.button_handler = some bh →
      s.afe_wrapper = some ah →
      audio_manager_deinit s env =
        (AudioManagerCtx.zero,
          [.pcStop (some ph), .destroy .buttonHandler bh,
           .destroy .afeWrapper ah, .destroy .playbackCtrl ph,
           .destroy .i2sHal ih]) ∧
      audio_manager_is_running (audio_manager_deinit s env).1 = false ∧
      audio_manager_is_recording (audio_manager_deinit s env).1 = false ∧
      (∀ h, TraceEv.destroy Collab.refBuffer h ∉
        (audio_manager_deinit s env).2) ∧
      (∀ cfg e2, audio_manager_init (audio_manager_deinit s env).1 cfg e2 =
        audio_manager_init AudioManagerCtx.zero cfg e2)) := by
  constructor
  · intro h
    simp [audio_manager_deinit, h]
  · intro ih ph bh ah h1 h2 h3 h4 h5
    have hd : audio_manager_deinit s env =
        (AudioManagerCtx.zero,
          [.pcStop (some ph), .destroy .buttonHandler bh,
           .destroy .afeWrapper ah, .destroy .playbackCtrl ph,
           .destroy .i2sHal ih]) := by
      rcases hr : s.running with _ | _ <;>
        simp [audio_manager_deinit, audio_manager_stop,
          audio_manager_stop_playback, h1, h2, h3, h4, h5, hr]
    refine ⟨hd, ?_, ?_, ?_, ?_⟩
    · rw [hd]; rfl
    · rw [hd]; rfl
    · intro h
      rw [hd]
      simp
    · intro cfg e2
      rw [hd]

/-- Witness for C7: deinit on the concrete initialized context stops
playback, destroys the four collaborators in reverse creation order, and
returns the zero context. -/
theorem deinit_spec_witness :
    audio_manager_deinit initializedCtx { pc_stop_result := .ok } =
      (AudioManagerCtx.zero,
        [.pcStop (some 13), .destroy .buttonHandler 16,
         .destroy .afeWrapper 15, .destroy .playbackCtrl 13,
         .destroy .i2sHal 11]) :=
  ((deinit_spec initializedCtx { pc_stop_result := .ok }).2 11 13 16 15
    rfl rfl rfl rfl rfl).1

/-- An init environment in which step 2 (the reference ring buffer) fails. -/
def envRbFail : InitEnv :=
  { i2s_create := some 11, rb_create := none, playback_create := some 13,
    playback_reference_rb := 14, afe_create := some 15,
    button_create := some 16 }

/-- Counterexample to C1: on the zero context with a valid config, when the
step-2 ring-buffer creation fails init does return resource-exhaustion and
initialized stays false, but the context is NOT left as if init had never
been called: volume is 80 (not its zero value), the stored config is the
caller's config (not the zero config), and the i2s_hal field still holds the
stale handle of the already-destroyed collaborator (not NULL). -/
theorem init_rollback_counterexample :
    (audio_manager_init AudioManagerCtx.zero (some testConfig) envRbFail).1 =
      .noMem ∧
    (audio_manager_init AudioManagerCtx.zero (some testConfig)
      envRbFail).2.1.initialized = false ∧
    (audio_manager_init AudioManagerCtx.zero (some testConfig)
      envRbFail).2.1.volume = 80 ∧
    (audio_manager_init AudioManagerCtx.zero (some testConfig)
      envRbFail).2.1.i2s_hal = some 11 ∧
    (audio_manager_init AudioManagerCtx.zero (some testConfig)
      envRbFail).2.1.config = testConfig ∧
    (audio_manager_init AudioManagerCtx.zero (some testConfig)
      envRbFail).2.1 ≠ AudioManagerCtx.zero := by
  refine ⟨rfl, rfl, rfl, rfl, rfl, ?_⟩
  intro h
  exact absurd (congrArg AudioManagerCtx.volume h) (by decide)

/-- Claim C1 as amended: when step k of init fails on an uninitialized
context with valid arguments, init returns resource-exhaustion, destroys the
collaborators it still tracks in strict reverse creation order (the
placeholder reference buffer only until PlaybackController supersedes it),
and initialized remains false — but the context is not restored: the stored
config, the default volume 80, and the handle fields written before the
failure (now stale) are retained, with only the failing step's own handle
field NULL. -/
theorem init_rollback_amended (s : AudioManagerCtx) (cfg : AudioMgrConfig)
    (env : InitEnv) (huninit : s.initialized = false)
    (hcb : cfg.event_callback.isSome = true) :
    (env.i2s_create = none →
      audio_manager_init s (some cfg) env =
        (.noMem,
          { s with config := cfg, volume := 80, i2s_hal := none }, [])) ∧
    (∀ h1, env.i2s_create = some h1 → env.rb_create = none →
      audio_manager_init s (some cfg) env =
        (.noMem,
          { s with config := cfg, volume := 80, i2s_hal := some h1,
                   reference_rb := none },
          [.create .i2sHal h1, .destroy .i2sHal h1])) ∧
    (∀ h1 h2, env.i2s_create = some h1 → env.rb_create = some h2 →
      env.playback_create = none →
      audio_manager_init s (some cfg) env =
        (.noMem,
          { s with config := cfg, volume := 80, i2s_hal := some h1,
                   reference_rb := some h2, playback_ctrl := none },
          [.create .i2sHal h1, .create .refBuffer h2,
           .destroy .refBuffer h2, .destroy .i2sHal h1])) ∧
    (∀ h1 h2 h3, env.i2s_create = some h1 → env.rb_create = some h2 →
      env.playback_create = some h3 → env.afe_create = none →
      audio_manager_init s (some cfg) env =
        (.noMem,
          { s with config := cfg, volume := 80, i2s_hal := some h1,
                   reference_rb := some env.playback_reference_rb,
                   playback_ctrl := some h3, afe_wrapper := none },
          [.create .i2sHal h1, .create .refBuffer h2,
           .create .playbackCtrl h3,
           .getReferenceBuffer env.playback_reference_rb,
           .destroy .playbackCtrl h3, .destroy .i2sHal h1])) ∧
    (∀ h1 h2 h3 h4, env.i2s_create = some h1 → env.rb_create = some h2 →
      env.playback_create = some h3 → env.afe_create = some h4 →
      env.button_create = none →
      audio_manager_init s (some cfg) env =
        (.noMem,
          { s with config := cfg, volume := 80, i2s_hal := some h1,
                   reference_rb := some env.playback_reference_rb,
                   playback_ctrl := some h3, afe_wrapper := some h4,
                   button_handler := none },
          [.create .i2sHal h1, .create .refBuffer h2,
           .create .playbackCtrl h3,
           .getReferenceBuffer env.playback_reference_rb,
           .create .afeWrapper h4,
           .destroy .afeWrapper h4, .destroy .playbackCtrl h3,
           .destroy .i2sHal h1])) := by
  obtain ⟨cb, hcb2⟩ := Option.isSome_iff_exists.mp hcb
  refine ⟨?_, ?_, ?_, ?_, ?_⟩
  · intro hi
    simp [audio_manager_init, huninit, hcb2, hi]
  · intro h1 hi hrb
    simp [audio_manager_init, huninit, hcb2, hi, hrb]
  · intro h1 h2 hi hrb hpb
    simp [audio_manager_init, huninit, hcb2, hi, hrb, hpb]
  · intro h1 h2 h3 hi hrb hpb hafe
    simp [audio_manager_init, huninit, hcb2, hi, hrb, hpb, hafe]
  · intro h1 h2 h3 h4 hi hrb hpb hafe hbtn
    simp [audio_manager_init, huninit, hcb2, hi, hrb, hpb, hafe, hbtn]

/-- Witness for amended C1: the step-2 failure on the zero context destroys
exactly the I2S HAL (the only collaborator created so far) and leaves the
stale handle, stored config and volume 80 behind. -/
theorem init_rollback_amended_witness :
    audio_manager_init AudioManagerCtx.zero (some testConfig) envRbFail =
      (.noMem,
        { AudioManagerCtx.zero with config := testConfig, volume := 80,
                                    i2s_hal := some 11,
                                    reference_rb := none },
        [.create .i2sHal 11, .destroy .i2sHal 11]) :=
  ((init_rollback_amended AudioManagerCtx.zero testConfig envRbFail rfl
    rfl).2.1) 11 rfl rfl

/-- The reachable context with `initialized = true`, `running = false` and
`recording = true`: start_recording on a freshly initialized context. -/
def recOnlyCtx : AudioManagerCtx :=
  (audio_manager_start_recording initializedCtx).2

/-- Counterexample to C2: on the reachable initialized context where running
is false and only recording is true, stop returns success but leaves the
state — including the recording flag — unchanged, instead of setting
recording to false. -/
theorem stop_recording_only_counterexample :
    recOnlyCtx.initialized = true ∧
    recOnlyCtx.running = false ∧
    recOnlyCtx.recording = true ∧
    audio_manager_stop recOnlyCtx = (.ok, recOnlyCtx) ∧
    audio_manager_is_recording (audio_manager_stop recOnlyCtx).2 = true := by
  exact ⟨rfl, rfl, rfl, rfl, rfl⟩

/-- Claim C2 as amended: on an initialized context, stop returns success and
when running is true it clears both running and recording; but when running
is already false it early-returns success with the whole state unchanged, so
a recording flag that is true with running false stays true.  Calling stop
again after a stop is a no-op returning success. -/
theorem stop_amended (s : AudioManagerCtx) (hinit : s.initialized = true) :
    (audio_manager_stop s).1 = .ok ∧
    (s.running = true →
      audio_manager_stop s =
        (.ok, { s with running := false, recording := false })) ∧
    (s.running = false → audio_manager_stop s = (.ok, s)) ∧
    audio_manager_stop (audio_manager_stop s).2 =
      (.ok, (audio_manager_stop s).2) := by
  refine ⟨?_, ?_, ?_, ?_⟩
  · rcases hr : s.running with _ | _ <;> simp [audio_manager_stop, hr]
  · intro hr; simp [audio_manager_stop, hr]
  · intro hr; simp [audio_manager_stop, hr]
  · rcases hr : s.running with _ | _ <;> simp [audio_manager_stop, hr]

/-- Witness for amended C2: on the recording-only context stop returns
success leaving the state unchanged. -/
theorem stop_amended_witness :
    audio_manager_stop recOnlyCtx = (.ok, recOnlyCtx) :=
  (stop_amended recOnlyCtx rfl).2.2.1 rfl

/-- Counterexample to C4: init with an absent config does not always return
invalid-argument — on an already-initialized context the fast path returns
success first and leaves initialized true, so the claim's universal
quantification over every call fails. -/
theorem init_null_args_counterexample :
    (audio_manager_init initializedCtx none envAllOk).1 = .ok ∧
    (audio_manager_init initializedCtx none envAllOk).1 ≠ .invalidArg ∧
    (audio_manager_init initializedCtx none envAllOk).2.1.initialized
      = true := by
  refine ⟨rfl, ?_, rfl⟩
  intro h
  have : EspErr.ok = EspErr.invalidArg := by
    calc EspErr.ok
        = (audio_manager_init initializedCtx none envAllOk).1 := rfl
      _ = EspErr.invalidArg := h
  exact absurd this (by simp)

/-- Claim C4 as amended: on an uninitialized context, init with an absent
config or an absent event callback returns invalid-argument, mutates no
state (context returned unchanged, no collaborator call), and leaves
initialized false. -/
theorem init_invalid_args_amended (s : AudioManagerCtx)
    (cfg : Option AudioMgrConfig) (env : InitEnv)
    (huninit : s.initialized = false)
    (habsent : cfg = none ∨ ∃ c, cfg = some c ∧ c.event_callback = none) :
    audio_manager_init s cfg env = (.invalidArg, s, []) ∧
    (audio_manager_init s cfg env).2.1.initialized = false := by
  rcases habsent with h | ⟨c, hc, hcbn⟩
  · subst h
    constructor
    · simp [audio_manager_init, huninit]
    · simp [audio_manager_init, huninit]
  · subst hc
    constructor
    · simp [audio_manager_init, huninit, hcbn]
    · simp [audio_manager_init, huninit, hcbn]

/-- Witness for amended C4: init with a NULL config on the zero context
returns invalid-argument and changes nothing. -/
theorem init_invalid_args_amended_witness :
    audio_manager_init AudioManagerCtx.zero none envAllOk =
      (.invalidArg, AudioManagerCtx.zero, []) :=
  (init_invalid_args_amended AudioManagerCtx.zero none envAllOk rfl
    (Or.inl rfl)).1
